import Mathlib

/-!
Verification of the vision-servicenode blockchain core against its
natural-language specification.

The development shallowly embeds the Python modules
`vision/servicenode/blockchains/middlewares.py` (RPC endpoint health
monitor) and `vision/servicenode/blockchains/base.py` (blockchain client
base class: submission-status resolution, transaction-submission request
construction, dependent-transaction scheduling), together with the thin
EVM-chain client variants (`avalanche.py`, `bnbchain.py`, `celo.py`,
`cronos.py`, `polygon.py`).

External collaborators (the `vision-common` chain utilities, the Celery
task queue, the database access layer, Python's `hashlib` and
`urllib.parse`) are embedded as explicit function parameters or as
concrete executable models; repository code that is referenced but not
part of the analysed sources (`configuration.py`, `ethereum.py`) is
modelled from the specification and marked as such in its doc comment.
-/

/-! ## Supported blockchains (model of `vision.common.blockchains.enums.Blockchain`) -/

/-- Chain identity enumeration, modelling the external
`vision.common.blockchains.enums.Blockchain` enum (the six chains the
analysed client variants mention). -/
inductive Blockchain where
  | AVALANCHE
  | BNB_CHAIN
  | CELO
  | CRONOS
  | ETHEREUM
  | POLYGON
deriving DecidableEq, Repr

/-- Transaction status enumeration, modelling the external
`vision.common.entities.TransactionStatus` enum: two non-terminal and
two terminal states. -/
inductive TransactionStatus where
  | UNINCLUDED
  | UNCONFIRMED
  | CONFIRMED
  | REVERTED
deriving DecidableEq, Repr

/-! ## SHA-256 (model of Python's `hashlib.sha256(...).hexdigest()`)

Executable SHA-256 over byte lists represented as `Nat`s, with all
32-bit arithmetic made explicit via `% 4294967296`.  Validated below
against the standard test vector for `"abc"` and against the digest of
`"/v1/secretkey"` used by the health-monitor claims. -/

/-- 2^32, the modulus of all SHA-256 word arithmetic. -/
def sha32Mod : Nat := 4294967296

/-- Right rotation of a 32-bit word (input assumed `< 2^32`). -/
def rotr32 (n x : Nat) : Nat :=
  ((x >>> n) ||| ((x <<< (32 - n)) % sha32Mod))

/-- SHA-256 small sigma 0. -/
def sha256s0 (x : Nat) : Nat := rotr32 7 x ^^^ rotr32 18 x ^^^ (x >>> 3)

/-- SHA-256 small sigma 1. -/
def sha256s1 (x : Nat) : Nat := rotr32 17 x ^^^ rotr32 19 x ^^^ (x >>> 10)

/-- SHA-256 big Sigma 0. -/
def sha256S0 (x : Nat) : Nat := rotr32 2 x ^^^ rotr32 13 x ^^^ rotr32 22 x

/-- SHA-256 big Sigma 1. -/
def sha256S1 (x : Nat) : Nat := rotr32 6 x ^^^ rotr32 11 x ^^^ rotr32 25 x

/-- SHA-256 choice function (32-bit complement written as XOR with
`0xffffffff`). -/
def sha256ch (x y z : Nat) : Nat := (x &&& y) ^^^ ((x ^^^ 4294967295) &&& z)

/-- SHA-256 majority function. -/
def sha256maj (x y z : Nat) : Nat := (x &&& y) ^^^ (x &&& z) ^^^ (y &&& z)

/-- The 64 SHA-256 round constants (in decimal). -/
def sha256k : List Nat :=
  [1116352408, 1899447441, 3049323471, 3921009573, 961987163,
   1508970993, 2453635748, 2870763221, 3624381080, 310598401,
   607225278, 1426881987, 1925078388, 2162078206, 2614888103,
   3248222580, 3835390401, 4022224774, 264347078, 604807628,
   770255983, 1249150122, 1555081692, 1996064986, 2554220882,
   2821834349, 2952996808, 3210313671, 3336571891, 3584528711,
   113926993, 338241895, 666307205, 773529912, 1294757372,
   1396182291, 1695183700, 1986661051, 2177026350, 2456956037,
   2730485921, 2820302411, 3259730800, 3345764771, 3516065817,
   3600352804, 4094571909, 275423344, 430227734, 506948616,
   659060556, 883997877, 958139571, 1322822218, 1537002063,
   1747873779, 1955562222, 2024104815, 2227730452, 2361852424,
   2428436474, 2756734187, 3204031479, 3329325298]

/-- The SHA-256 initial hash value (in decimal). -/
def sha256h0 : List Nat :=
  [1779033703, 3144134277, 1013904242, 2773480762,
   1359893119, 2600822924, 528734635, 1541459225]

/-- Group a byte list into big-endian 32-bit words. -/
def bytesToWords32 : List Nat → List Nat
  | b0 :: b1 :: b2 :: b3 :: rest =>
      (((b0 * 256 + b1) * 256 + b2) * 256 + b3) :: bytesToWords32 rest
  | _ => []

/-- Extend a 16-word block by `n` further message-schedule words. -/
def sha256extend (w : List Nat) : Nat → List Nat
  | 0 => w
  | n + 1 =>
      let len := w.length
      let nw := (sha256s1 (w.getD (len - 2) 0) + w.getD (len - 7) 0 +
                 sha256s0 (w.getD (len - 15) 0) + w.getD (len - 16) 0) % sha32Mod
      sha256extend (w ++ [nw]) n

/-- One SHA-256 compression round on the eight-word working state. -/
def sha256round (st : List Nat) (kw : Nat × Nat) : List Nat :=
  match st with
  | [a, b, c, d, e, f, g, h] =>
      let t1 := (h + sha256S1 e + sha256ch e f g + kw.1 + kw.2) % sha32Mod
      let t2 := (sha256S0 a + sha256maj a b c) % sha32Mod
      [(t1 + t2) % sha32Mod, a, b, c, (d + t1) % sha32Mod, e, f, g]
  | other => other

/-- Compress one 64-byte block (given as 16 words) into the hash state. -/
def sha256compress (h : List Nat) (block : List Nat) : List Nat :=
  let ws := sha256extend block 48
  let st := List.foldl sha256round h (sha256k.zip ws)
  List.zipWith (fun x y => (x + y) % sha32Mod) h st

/-- Split a byte list into 64-byte chunks (fuel-driven; called with the
list length as fuel). -/
def chunks64 : Nat → List Nat → List (List Nat)
  | 0, _ => []
  | _ + 1, [] => []
  | fuel + 1, l => l.take 64 :: chunks64 fuel (l.drop 64)

/-- The eight big-endian bytes of a 64-bit message-bit length. -/
def sha256lenBytes (bitlen : Nat) : List Nat :=
  [(bitlen >>> 56) % 256, (bitlen >>> 48) % 256, (bitlen >>> 40) % 256,
   (bitlen >>> 32) % 256, (bitlen >>> 24) % 256, (bitlen >>> 16) % 256,
   (bitlen >>> 8) % 256, bitlen % 256]

/-- SHA-256 of a byte list, as the list of the eight 32-bit hash words. -/
def sha256words (msg : List Nat) : List Nat :=
  let L := msg.length
  let padded := msg ++ [128] ++ List.replicate ((119 - L % 64) % 64) 0 ++
                sha256lenBytes (8 * L)
  List.foldl sha256compress sha256h0
    ((chunks64 padded.length padded).map bytesToWords32)

/-- Lowercase hex digit characters. -/
def hexDigit (n : Nat) : Char :=
  "0123456789abcdef".toList.getD n '0'

/-- Eight-hex-digit big-endian rendering of a 32-bit word. -/
def toHex8 (x : Nat) : String :=
  String.mk ((List.range 8).map (fun i => hexDigit ((x >>> (28 - 4 * i)) &&& 15)))

/-- `hashlib.sha256(s.encode()).hexdigest()` for ASCII strings: the
UTF-8 bytes of an ASCII string are exactly its character codes. -/
def sha256hex (s : String) : String :=
  String.join ((sha256words (s.data.map Char.toNat)).map toHex8)

/-! ## URL parsing (model of `urllib.parse.urlparse`)

`__obfuscate_endpoint_path` only reads `scheme`, `netloc` and `path`
from the parse result.  The model below reproduces `urlparse` on URLs
of the shape `scheme://netloc/path` without query, fragment or
parameter components, which is the shape of the RPC endpoint URIs the
middleware handles. -/

/-- The components of a parsed URL that the obfuscation reads. -/
structure ParsedUrl where
  scheme : String
  netloc : String
  path : String
deriving DecidableEq, Repr

/-- Split a character list at the first occurrence of `"://"`,
returning the characters before it and the characters after it. -/
def splitSchemeAux (acc : List Char) : List Char → Option (List Char × List Char)
  | ':' :: '/' :: '/' :: rest => some (acc.reverse, rest)
  | c :: rest => splitSchemeAux (c :: acc) rest
  | [] => none

/-- Model of `urllib.parse.urlparse` restricted to
`scheme://netloc/path` URLs (no query, fragment or params): the scheme
is everything before the first `"://"`, the network location runs to
the next `/`, and the path is the rest (including its leading `/`); a
URL without `"://"` parses with empty scheme and netloc, everything in
the path. -/
def urlparse (url : String) : ParsedUrl :=
  match splitSchemeAux [] url.data with
  | none => ⟨"", "", url⟩
  | some (schemeChars, rest) =>
      ⟨String.mk schemeChars,
       String.mk (rest.takeWhile (fun c => c ≠ '/')),
       String.mk (rest.dropWhile (fun c => c ≠ '/'))⟩

/-! ## NodeHealthMiddleware (embedding of `middlewares.py`)

The process-wide health map `NodeHealthMiddleware._health_data` is a
Python dict from endpoint string to `{'blockchain': ..., 'is_healthy':
...}`; it is embedded as an insertion-ordered association list. -/

/-- One value of the health map: the dict
`{'blockchain': ..., 'is_healthy': ...}`. -/
structure HealthEntry where
  blockchain : Blockchain
  is_healthy : Bool
deriving DecidableEq, Repr

/-- The health map `NodeHealthMiddleware._health_data`, keyed by
endpoint string in insertion order. -/
abbrev HealthMap : Type := List (String × HealthEntry)

/-- Python dict lookup on the embedded health map. -/
def lookupEntry (key : String) : HealthMap → Option HealthEntry
  | [] => none
  | (k, e) :: rest => if k = key then some e else lookupEntry key rest

/-- Embedding of `NodeHealthMiddleware.__obfuscate_endpoint_path`
(middlewares.py lines 69-96): replace a nonempty URL path by the
SHA-256 hex digest of the path, keeping scheme and network location;
with an empty path, keep only scheme and network location. -/
def obfuscate_endpoint_path (url : String) : String :=
  let parsed_url := urlparse url
  if parsed_url.path.length > 0 then
    parsed_url.scheme ++ "://" ++ parsed_url.netloc ++ sha256hex parsed_url.path
  else
    parsed_url.scheme ++ "://" ++ parsed_url.netloc

/-- The per-chain RPC-node configuration consumed by
`add_blockchain_endpoint`.

Modelled from the spec: `get_blockchains_rpc_nodes` lives in
`vision/servicenode/configuration.py`, which is not among the analysed
sources.  Per the specification (§6 "Configuration": per chain a
provider URL plus fallback URLs; §4.5: "each configured endpoint URI is
matched (first match wins) against the chain's configured RPC-node
list"), it yields for each chain a pair of the primary RPC-node URL
list and the fallback URL list; `nodes[0]` in the source is the primary
list. -/
abbrev RpcNodesConfig : Type :=
  List (Blockchain × (List String × List String))

/-- Embedding of `NodeHealthMiddleware.add_blockchain_endpoint`
(middlewares.py lines 24-40): walk the configured chains in order; at
the first chain whose primary RPC-node list contains the endpoint URI,
insert the entry `{blockchain, is_healthy := true}` under the *raw*
`endpoint_uri` key unless that key is already present, then stop. -/
def add_blockchain_endpoint (rpc_nodes : RpcNodesConfig) (m : HealthMap)
    (endpoint_uri : String) : HealthMap :=
  match rpc_nodes with
  | [] => m
  | (blockchain, nodes) :: rest =>
      if endpoint_uri ∈ nodes.1 then
        if (lookupEntry endpoint_uri m).isSome then m
        else m ++ [(endpoint_uri, ⟨blockchain, true⟩)]
      else add_blockchain_endpoint rest m endpoint_uri

/-- Set `is_healthy := false` on the entry stored under `key`
(the mutation `self._health_data[obfuscated_endpoint]['is_healthy'] =
False`). -/
def setUnhealthy (key : String) : HealthMap → HealthMap
  | [] => []
  | (k, e) :: rest =>
      if k = key then (k, ⟨e.blockchain, false⟩) :: setUnhealthy key rest
      else (k, e) :: setUnhealthy key rest

/-- Embedding of the closure returned by
`NodeHealthMiddleware.wrap_make_request` (middlewares.py lines 98-111):
attempt the wrapped call; on success return its response with the map
untouched; on an exception, set the entry stored under the *obfuscated*
endpoint URI (when present) to unhealthy and re-raise the same
exception. -/
def wrap_make_request_middleware {M P E R : Type}
    (make_request : M → P → Except E R) (endpoint_uri : String)
    (m : HealthMap) (method : M) (params : P) : Except E R × HealthMap :=
  match make_request method params with
  | .ok response => (.ok response, m)
  | .error e =>
      let obfuscated_endpoint := obfuscate_endpoint_path endpoint_uri
      if (lookupEntry obfuscated_endpoint m).isSome then
        (.error e, setUnhealthy obfuscated_endpoint m)
      else (.error e, m)

/-! ### flush_health_data -/

/-- One per-chain aggregate record built by `flush_health_data`; the
`unhealthy_endpoints` list is persisted JSON-serialized, which the
embedding keeps as the list itself. -/
structure ChainRecord where
  unhealthy_total : Nat
  unhealthy_endpoints : List String
  healthy_total : Nat
deriving DecidableEq, Repr

/-- The zero record `{'unhealthy_total': 0, 'unhealthy_endpoints': [],
'healthy_total': 0}` that `flush_health_data` creates for a chain seen
for the first time. -/
def emptyChainRecord : ChainRecord := ⟨0, [], 0⟩

/-- The per-entry update `flush_health_data` applies to a chain's
record: count a healthy endpoint, or count an unhealthy one and append
its key to the unhealthy list. -/
def bumpRecord (endpoint : String) (e : HealthEntry) (r : ChainRecord) :
    ChainRecord :=
  if e.is_healthy then { r with healthy_total := r.healthy_total + 1 }
  else { r with unhealthy_total := r.unhealthy_total + 1,
                unhealthy_endpoints := r.unhealthy_endpoints ++ [endpoint] }

/-- Python dict lookup on the per-chain aggregate dict. -/
def lookupRecord (b : Blockchain) : List (Blockchain × ChainRecord) →
    Option ChainRecord
  | [] => none
  | (b', r) :: rest => if b' = b then some r else lookupRecord b rest

/-- Apply `f` to chain `b`'s record, initializing it to
`emptyChainRecord` first when absent (the `if blockchain not in
node_health_data` initialization followed by the unconditional
update). -/
def upsertRecord (b : Blockchain) (f : ChainRecord → ChainRecord) :
    List (Blockchain × ChainRecord) → List (Blockchain × ChainRecord)
  | [] => [(b, f emptyChainRecord)]
  | (b', r) :: rest =>
      if b' = b then (b', f r) :: rest else (b', r) :: upsertRecord b f rest

/-- The aggregation loop of `NodeHealthMiddleware.flush_health_data`
(middlewares.py lines 47-61): walk the live health map in order and
build one record per chain. -/
def flush_records (m : HealthMap) : List (Blockchain × ChainRecord) :=
  m.foldl (fun acc kv => upsertRecord kv.2.blockchain (bumpRecord kv.1 kv.2) acc)
    []

/-- Embedding of `NodeHealthMiddleware.flush_health_data`
(middlewares.py lines 42-67) as a state transition of the live map: it
returns the (unchanged) map together with the per-chain records it
passes, in order, to the external `update_node_health_data` database
call. -/
def flush_health_data (m : HealthMap) :
    HealthMap × List (Blockchain × ChainRecord) :=
  (m, flush_records m)

/-- One step of the flush aggregation loop: fold the next health-map
entry into the per-chain records (the loop body of middlewares.py
lines 48-61, named for the proofs; `flush_records m = m.foldl
flushStep []` definitionally). -/
def flushStep (acc : List (Blockchain × ChainRecord))
    (kv : String × HealthEntry) : List (Blockchain × ChainRecord) :=
  upsertRecord kv.2.blockchain (bumpRecord kv.1 kv.2) acc

/-- The number of health-map entries registered for chain `b`. -/
def countChain (b : Blockchain) : HealthMap → Nat
  | [] => 0
  | (_, e) :: rest => (if e.blockchain = b then 1 else 0) + countChain b rest

/-- The total number of endpoints a flush tally accounts for under
chain `b` (zero when the chain has no record). -/
def sumAt (b : Blockchain) (acc : List (Blockchain × ChainRecord)) : Nat :=
  match lookupRecord b acc with
  | some r => r.healthy_total + r.unhealthy_total
  | none => 0

/-! ## BlockchainClient (embedding of `base.py`)

Internal transaction ids (`uuid.UUID`) are modelled as `Nat`.  The
chain-utility collaborator (`vision-common`'s `BlockchainUtilities`)
and the abstract `_read_on_chain_transfer_id` hook are explicit
function parameters. -/

/-- Contract ABI selector, modelling the external
`vision.common.blockchains.enums.ContractAbi` variants used in
`base.py`. -/
inductive ContractAbi where
  | VISION_HUB
  | VISION_TOKEN
  | VISION_FORWARDER
deriving DecidableEq, Repr

/-- Model of `vision.common.blockchains.base.VersionedContractAbi`:
a contract ABI together with the protocol version (kept opaque as a
string). -/
structure VersionedContractAbi where
  contract_abi : ContractAbi
  version : String
deriving DecidableEq, Repr

/-- Embedding of the dataclass
`BlockchainClient.TransferSubmissionStatusResponse` (base.py lines
504-531). -/
structure TransferSubmissionStatusResponse where
  transaction_submission_completed : Bool
  transaction_status : Option TransactionStatus := none
  transaction_id : Option String := none
  on_chain_transfer_id : Option Int := none
deriving DecidableEq, Repr

/-- Model of the chain-utility collaborator's
`TransactionSubmissionStatusResponse` (`vision-common`): completion
flag, optional transaction status and optional transaction id. -/
structure UtilitiesStatusResponse where
  transaction_submission_completed : Bool
  transaction_status : Option TransactionStatus := none
  transaction_id : Option String := none
deriving DecidableEq, Repr

/-- The error outcomes of `BlockchainClient.get_transfer_submission_status`:
the unresolvable-submission error raised when the collaborator fails, a
generic blockchain-client error propagated from
`_read_on_chain_transfer_id`, and a failed `assert`. -/
inductive StatusQueryError where
  | unresolvableTransferSubmission
  | blockchainClientError
  | assertionFailed
deriving DecidableEq, Repr

/-- Embedding of `BlockchainClient.get_transfer_submission_status`
(base.py lines 533-588).  `get_transaction_submission_status` embeds
the chain-utility collaborator call (failing with its
`BlockchainUtilitiesError`, carried as `Unit`), and
`read_on_chain_transfer_id` embeds the abstract chain-specific
`_read_on_chain_transfer_id` hook (failing with a
`BlockchainClientError`). -/
def get_transfer_submission_status
    (get_transaction_submission_status : Nat → Except Unit UtilitiesStatusResponse)
    (read_on_chain_transfer_id : String → Blockchain → Except Unit Int)
    (internal_transaction_id : Nat) (destination_blockchain : Blockchain) :
    Except StatusQueryError TransferSubmissionStatusResponse :=
  match get_transaction_submission_status internal_transaction_id with
  | .error _ => .error .unresolvableTransferSubmission
  | .ok status_response =>
      if ¬ status_response.transaction_submission_completed then
        .ok { transaction_submission_completed := false }
      else
        let transaction_status := status_response.transaction_status
        if ¬ (transaction_status = some .CONFIRMED ∨
              transaction_status = some .REVERTED) then
          .error .assertionFailed
        else
          match status_response.transaction_id with
          | none => .error .assertionFailed
          | some transaction_id =>
              if transaction_status = some .CONFIRMED then
                match read_on_chain_transfer_id transaction_id
                    destination_blockchain with
                | .error _ => .error .blockchainClientError
                | .ok on_chain_transfer_id =>
                    .ok { transaction_submission_completed := true,
                          transaction_status := transaction_status,
                          transaction_id := some transaction_id,
                          on_chain_transfer_id := some on_chain_transfer_id }
              else
                .ok { transaction_submission_completed := true,
                      transaction_status := transaction_status,
                      transaction_id := some transaction_id,
                      on_chain_transfer_id := none }

/-! ### Transaction-submission request construction -/

/-- The blockchain-specific configuration entries `base.py` reads
through `self._get_config()`.

Modelled from the spec: `get_blockchain_config` lives in
`vision/servicenode/configuration.py`, which is not among the analysed
sources.  Per the specification (§6 "Configuration": per chain the
hub/token addresses, fee-policy knobs — min fee, max total fee or
unset, growth factor, blocks-until-resubmission — and average block
time), it is a per-chain record with these fields; `max_total_fee_per_gas`
is `none` when the configuration entry is absent.  The fee growth
factor is forwarded opaquely and kept as a `Nat`. -/
structure ChainConfig where
  hub : String
  vsn_token : String
  min_adaptable_fee_per_gas : Nat
  max_total_fee_per_gas : Option Nat
  adaptable_fee_increase_factor : Nat
  blocks_until_resubmission : Nat
  average_block_time : Nat
deriving DecidableEq, Repr

/-- Embedding of the dataclass
`BlockchainClient._TransactionSubmissionStartRequest` (base.py lines
754-787); the opaque contract-function arguments are kept as a
string. -/
structure TransactionSubmissionStartRequest where
  versioned_contract_abi : VersionedContractAbi
  function_selector : String
  function_args : String
  gas : Option Nat
  amount : Option Nat
  nonce : Nat
deriving DecidableEq, Repr

/-- Model of `vision-common`'s
`BlockchainUtilities.TransactionSubmissionStartRequest`: the full
request `base.py` hands to the chain-utility collaborator, in the
positional order of its construction. -/
structure UtilitiesSubmissionStartRequest where
  contract_address : String
  versioned_contract_abi : VersionedContractAbi
  function_selector : String
  function_args : String
  gas : Option Nat
  min_adaptable_fee_per_gas : Nat
  max_total_fee_per_gas : Option Nat
  amount : Option Nat
  nonce : Nat
  adaptable_fee_increase_factor : Nat
  blocks_until_resubmission : Nat
deriving DecidableEq, Repr

/-- The contract-role dispatch shared by `_start_transaction_submission`
(base.py lines 822-828) and `_start_depending_transactions_submission`
(base.py lines 894-902): the Vision Hub ABI resolves to the configured
hub address, the Vision Token ABI to the configured token address, and
anything else raises `NotImplementedError` (carried as `Unit`). -/
def contract_address_for (cfg : ChainConfig) :
    ContractAbi → Except Unit String
  | .VISION_HUB => .ok cfg.hub
  | .VISION_TOKEN => .ok cfg.vsn_token
  | .VISION_FORWARDER => .error ()

/-- The fee-cap normalization of base.py lines 831-834 and 905-908:
`max_total_fee_per_gas = self._get_config().get('max_total_fee_per_gas')`
followed by `if max_total_fee_per_gas == 0: max_total_fee_per_gas =
None` (an absent entry is already `None`, and `None == 0` is false in
Python). -/
def normalized_max_total_fee_per_gas (cfg : ChainConfig) : Option Nat :=
  match cfg.max_total_fee_per_gas with
  | some 0 => none
  | other => other

/-- Assembly of the chain-utility submission request from a resolved
contract address, the configuration and a transaction request
(base.py lines 829-844 and the identical per-transaction assembly in
lines 903-938). -/
def make_utilities_request (cfg : ChainConfig) (contract_address : String)
    (request : TransactionSubmissionStartRequest) :
    UtilitiesSubmissionStartRequest :=
  { contract_address := contract_address,
    versioned_contract_abi := request.versioned_contract_abi,
    function_selector := request.function_selector,
    function_args := request.function_args,
    gas := request.gas,
    min_adaptable_fee_per_gas := cfg.min_adaptable_fee_per_gas,
    max_total_fee_per_gas := normalized_max_total_fee_per_gas cfg,
    amount := request.amount,
    nonce := request.nonce,
    adaptable_fee_increase_factor := cfg.adaptable_fee_increase_factor,
    blocks_until_resubmission := cfg.blocks_until_resubmission }

/-- The chain-utility request built by
`BlockchainClient._start_transaction_submission` (base.py lines
789-846) before it is handed to
`self._get_utilities().start_transaction_submission`; the contract-role
dispatch may fail with `NotImplementedError`. -/
def start_transaction_submission_request (cfg : ChainConfig)
    (request : TransactionSubmissionStartRequest) :
    Except Unit UtilitiesSubmissionStartRequest :=
  match contract_address_for cfg request.versioned_contract_abi.contract_abi with
  | .error e => .error e
  | .ok contract_address => .ok (make_utilities_request cfg contract_address request)

/-! ### Dependent-transaction scheduling -/

/-- Embedding of the dataclass
`BlockchainClient._DependingTransactionSubmissionStartRequest`
(base.py lines 848-870). -/
structure DependingTransactionSubmissionStartRequest where
  prerequisite_transaction : TransactionSubmissionStartRequest
  dependent_transaction : TransactionSubmissionStartRequest
  blocks_to_wait : Nat
deriving DecidableEq, Repr

/-- The keyword payload `_start_depending_transactions_submission`
passes to `_dependent_transaction_submission_task.delay` (base.py lines
940-945); the prerequisite id is carried as the id itself (`str(...)`
in the source) and the dependent request as the request itself
(`to_dict()` in the source). -/
structure DependentTaskPayload where
  blockchain_id : Blockchain
  prerequisite_internal_id : Nat
  blocks_to_wait : Nat
  average_block_time : Nat
  request : UtilitiesSubmissionStartRequest
deriving DecidableEq, Repr

/-- The two external collaborator calls
`_start_depending_transactions_submission` makes, as state-passing
functions over an abstract collaborator state `σ`:
`self._get_utilities().start_transaction_submission(...)` and
`_dependent_transaction_submission_task.delay(...)` (a Celery task
enqueue, whose immediate return is the enqueue's own result). -/
structure UtilitiesCollab (σ : Type) where
  start_transaction_submission :
    UtilitiesSubmissionStartRequest → σ → Nat × σ
  dependent_transaction_submission_task_delay :
    DependentTaskPayload → σ → Nat × σ

/-- Embedding of
`BlockchainClient._start_depending_transactions_submission` (base.py
lines 872-945): resolve the contract address from the *prerequisite*
transaction's ABI, build the prerequisite chain-utility request, start
its submission, build the dependent chain-utility request with the same
contract address and fee policy, enqueue the delayed dependent task
with the prerequisite's internal id, the blocks to wait and the chain's
average block time, and return the enqueue call's result. -/
def start_depending_transactions_submission {σ : Type}
    (c : UtilitiesCollab σ) (cfg : ChainConfig) (blockchain : Blockchain)
    (request : DependingTransactionSubmissionStartRequest) (s : σ) :
    Except Unit (Nat × σ) :=
  match contract_address_for cfg
      request.prerequisite_transaction.versioned_contract_abi.contract_abi with
  | .error e => .error e
  | .ok contract_address =>
      let prerequisite_request :=
        make_utilities_request cfg contract_address
          request.prerequisite_transaction
      let (prerequisite_internal_id, s1) :=
        c.start_transaction_submission prerequisite_request s
      let dependent_request :=
        make_utilities_request cfg contract_address
          request.dependent_transaction
      .ok (c.dependent_transaction_submission_task_delay
        { blockchain_id := blockchain,
          prerequisite_internal_id := prerequisite_internal_id,
          blocks_to_wait := request.blocks_to_wait,
          average_block_time := cfg.average_block_time,
          request := dependent_request } s1)

/-- Observable interaction with the submission collaborators: a started
transaction submission (with its assigned internal id) or an enqueued
dependent-task job (with the enqueue's task id). -/
inductive SubmissionEvent where
  | started (internal_id : Nat) (request : UtilitiesSubmissionStartRequest)
  | enqueued (task_id : Nat) (payload : DependentTaskPayload)
deriving DecidableEq, Repr

/-- The canonical tracing collaborator: ids are handed out from a
fresh-id counter and every call is appended to an event trace, so the
order and data flow of the collaborator calls become checkable. -/
def traceUtilities : UtilitiesCollab (Nat × List SubmissionEvent) :=
  { start_transaction_submission := fun r st =>
      (st.1, (st.1 + 1, st.2 ++ [.started st.1 r])),
    dependent_transaction_submission_task_delay := fun p st =>
      (st.1, (st.1 + 1, st.2 ++ [.enqueued st.1 p])) }

/-! ## EVM-compatible client variants

`avalanche.py`, `bnbchain.py`, `celo.py`, `cronos.py` and `polygon.py`
each declare a client subclass of `EthereumClient` overriding exactly
the two classmethods `get_blockchain` and `get_error_class`, plus an
error subclass of `EthereumClientError`. -/

/-- The concrete error classes of the EVM client family. -/
inductive EvmErrorClass where
  | EthereumClientError
  | AvalancheClientError
  | BnbChainClientError
  | CeloClientError
  | CronosClientError
  | PolygonClientError
deriving DecidableEq, Repr

/-- The inherited operation surface of an EVM-compatible client.

Modelled from the spec: `ethereum.py` (`EthereumClient`) is not among
the analysed sources; per the specification (§4.1), the base client
exposes address/registration/deposit/token-record/balance/commitment/
submission/status operations, and the concrete variants inherit all of
them unchanged.  Each field stands for one inherited operation's
behaviour. -/
structure EthereumOps where
  get_own_address : Unit → String
  is_node_registered : Unit → Except Unit Bool
  is_valid_recipient_address : String → Bool
  read_external_token_record : String → Blockchain → Except Unit (Bool × String)
  read_minimum_deposit : Unit → Except Unit Nat
  read_node_url : Unit → Except Unit String
  read_own_vsn_balance : Unit → Except Unit Nat
  register_node : String → Nat → String → Except Unit Unit
  unregister_node : Unit → Except Unit Unit
  update_node_url : String → Except Unit Unit
  is_unbonding : Unit → Except Unit Bool
  cancel_unregistration : Unit → Except Unit Unit
  calculate_commitment : List String → List String → List Nat
  get_commitment_wait_period : Blockchain → Except Unit Nat
  get_validator_fee_factor : Blockchain → Except Unit Nat
  start_transfer_submission : String → Except Unit Nat
  start_transfer_from_submission : String → Except Unit Nat
  get_transfer_submission_status_op :
    Nat → Blockchain → Except StatusQueryError TransferSubmissionStatusResponse

/-- An EVM-compatible client: the chain identity and error class it
reports, plus its inherited operations. -/
structure EvmClient where
  get_blockchain : Blockchain
  get_error_class : EvmErrorClass
  ops : EthereumOps

/-- `AvalancheClient` (avalanche.py lines 13-33): inherits every
operation from the Ethereum base and overrides exactly the chain
identity and the error class. -/
def AvalancheClient (base : EthereumOps) : EvmClient :=
  ⟨.AVALANCHE, .AvalancheClientError, base⟩

/-- `BnbChainClient` (bnbchain.py): inherits every operation from the
Ethereum base and overrides exactly the chain identity and the error
class. -/
def BnbChainClient (base : EthereumOps) : EvmClient :=
  ⟨.BNB_CHAIN, .BnbChainClientError, base⟩

/-- `CeloClient` (celo.py lines 13-33): inherits every operation from
the Ethereum base and overrides exactly the chain identity and the
error class. -/
def CeloClient (base : EthereumOps) : EvmClient :=
  ⟨.CELO, .CeloClientError, base⟩

/-- `CronosClient` (cronos.py): inherits every operation from the
Ethereum base and overrides exactly the chain identity and the error
class. -/
def CronosClient (base : EthereumOps) : EvmClient :=
  ⟨.CRONOS, .CronosClientError, base⟩

/-- `PolygonClient` (polygon.py lines 13-33): inherits every operation
from the Ethereum base and overrides exactly the chain identity and the
error class. -/
def PolygonClient (base : EthereumOps) : EvmClient :=
  ⟨.POLYGON, .PolygonClientError, base⟩

/-- A concrete blockchain configuration used by the witnesses. -/
def sampleConfig : ChainConfig :=
  ⟨"0xhub", "0xtoken", 100, none, 2, 10, 14⟩

/-- A concrete prerequisite-transaction request used by the
witnesses. -/
def sampleTx1 : TransactionSubmissionStartRequest :=
  ⟨⟨.VISION_HUB, "1.0.0"⟩, "transfer", "argsA", some 21000, none, 7⟩

/-- A concrete dependent-transaction request used by the witnesses. -/
def sampleTx2 : TransactionSubmissionStartRequest :=
  ⟨⟨.VISION_HUB, "1.0.0"⟩, "transferFrom", "argsB", none, some 5, 8⟩

/-- A concrete dependent-submission request used by the witnesses. -/
def sampleDepRequest : DependingTransactionSubmissionStartRequest :=
  ⟨sampleTx1, sampleTx2, 5⟩

/-- The endpoint URI with an embedded API key used by the
health-monitor claims. -/
def secretEndpointUri : String := "https://p.example/v1/secretkey"

/-- An RPC-node configuration whose Avalanche primary node list
contains the secret endpoint URI. -/
def secretRpcNodes : RpcNodesConfig :=
  [(.AVALANCHE, ([secretEndpointUri], []))]

/-- The aggregate invariant of the flush: every tallied record's
unhealthy-endpoint list has exactly `unhealthy_total` elements. -/
def GoodLens (acc : List (Blockchain × ChainRecord)) : Prop :=
  ∀ b r, lookupRecord b acc = some r →
    r.unhealthy_endpoints.length = r.unhealthy_total

/-! ## Theorems -/

/-- Sanity anchor for the SHA-256 model: the standard `"abc"` test
vector. -/
theorem sha256hex_abc :
    sha256hex "abc" =
      "ba7816bf8f01cfea414140de5dae2223b00361a396177a9cb410ff61f20015ad" := by
  decide

/-- C1: For every internal transaction id and destination blockchain,
`BlockchainClient.get_transfer_submission_status` returns: if the
chain-utility collaborator reports the submission as not completed, a
response with `transaction_submission_completed = false` and
`transaction_status`, `transaction_id` and `on_chain_transfer_id` all
unset; if the collaborator reports a terminal CONFIRMED result, a
response with `completed = true`, status CONFIRMED, the collaborator's
transaction id, and the on-chain transfer id resolved via
`_read_on_chain_transfer_id` on the destination chain; if REVERTED, a
response with `completed = true`, status REVERTED, the transaction id,
and `on_chain_transfer_id` unset. -/
theorem claim_C1_status_resolution
    (u : Nat → Except Unit UtilitiesStatusResponse)
    (r : String → Blockchain → Except Unit Int)
    (itid : Nat) (dest : Blockchain)
    (sr : UtilitiesStatusResponse) (hu : u itid = .ok sr) :
    (sr.transaction_submission_completed = false →
      get_transfer_submission_status u r itid dest =
        .ok ⟨false, none, none, none⟩) ∧
    (∀ tid oid, sr.transaction_submission_completed = true →
      sr.transaction_status = some .CONFIRMED →
      sr.transaction_id = some tid →
      r tid dest = .ok oid →
      get_transfer_submission_status u r itid dest =
        .ok ⟨true, some .CONFIRMED, some tid, some oid⟩) ∧
    (∀ tid, sr.transaction_submission_completed = true →
      sr.transaction_status = some .REVERTED →
      sr.transaction_id = some tid →
      get_transfer_submission_status u r itid dest =
        .ok ⟨true, some .REVERTED, some tid, none⟩) := by
  refine ⟨fun hnc => ?_, fun tid oid hc hs ht hr => ?_, fun tid hc hs ht => ?_⟩
  · simp [get_transfer_submission_status, hu, hnc]
  · simp [get_transfer_submission_status, hu, hc, hs, ht, hr]
  · simp [get_transfer_submission_status, hu, hc, hs, ht]

/-- Witness for C1: the three branches evaluated at concrete
collaborators and inputs. -/
theorem claim_C1_status_resolution_witness :
    (get_transfer_submission_status
        (fun _ => .ok ⟨false, none, none⟩) (fun _ _ => .ok 7) 5 .ETHEREUM =
      .ok ⟨false, none, none, none⟩) ∧
    (get_transfer_submission_status
        (fun _ => .ok ⟨true, some .CONFIRMED, some "0xabc"⟩)
        (fun _ _ => .ok 7) 5 .ETHEREUM =
      .ok ⟨true, some .CONFIRMED, some "0xabc", some 7⟩) ∧
    (get_transfer_submission_status
        (fun _ => .ok ⟨true, some .REVERTED, some "0xdef"⟩)
        (fun _ _ => .ok 7) 5 .ETHEREUM =
      .ok ⟨true, some .REVERTED, some "0xdef", none⟩) :=
  ⟨(claim_C1_status_resolution (fun _ => .ok ⟨false, none, none⟩)
      (fun _ _ => .ok 7) 5 .ETHEREUM ⟨false, none, none⟩ rfl).1 rfl,
   (claim_C1_status_resolution (fun _ => .ok ⟨true, some .CONFIRMED, some "0xabc"⟩)
      (fun _ _ => .ok 7) 5 .ETHEREUM ⟨true, some .CONFIRMED, some "0xabc"⟩
      rfl).2.1 "0xabc" 7 rfl rfl rfl rfl,
   (claim_C1_status_resolution (fun _ => .ok ⟨true, some .REVERTED, some "0xdef"⟩)
      (fun _ _ => .ok 7) 5 .ETHEREUM ⟨true, some .REVERTED, some "0xdef"⟩
      rfl).2.2 "0xdef" rfl rfl rfl⟩

/-- C8: `get_transfer_submission_status` raises
`UnresolvableTransferSubmissionError` if and only if the chain-utility
collaborator's `get_transaction_submission_status` raises
`BlockchainUtilitiesError` for the given internal transaction id; in
that case no status response is produced. -/
theorem claim_C8_unresolvable_iff_utilities_error
    (u : Nat → Except Unit UtilitiesStatusResponse)
    (r : String → Blockchain → Except Unit Int)
    (itid : Nat) (dest : Blockchain) :
    get_transfer_submission_status u r itid dest =
        .error .unresolvableTransferSubmission ↔
      u itid = .error () := by
  unfold get_transfer_submission_status
  cases h : u itid with
  | error e => cases e; simp
  | ok sr =>
      simp only [h]
      constructor
      · intro hc
        split at hc
        · exact absurd hc (by simp)
        · split at hc
          · exact absurd hc (by simp)
          · split at hc
            · exact absurd hc (by simp)
            · split at hc
              · split at hc
                · exact absurd hc (by simp)
                · exact absurd hc (by simp)
              · exact absurd hc (by simp)
      · intro hc
        cases hc

/-- Witness for C8 at a concrete failing collaborator and a concrete
successful one. -/
theorem claim_C8_unresolvable_iff_utilities_error_witness :
    get_transfer_submission_status (fun _ => .error ())
        (fun _ _ => .ok 7) 1 .CELO =
      .error .unresolvableTransferSubmission :=
  (claim_C8_unresolvable_iff_utilities_error (fun _ => .error ())
    (fun _ _ => .ok 7) 1 .CELO).mpr rfl

/-- The contract-role dispatch only reads the hub and token addresses,
which a change of `max_total_fee_per_gas` leaves untouched. -/
theorem contract_address_for_fee_cap_irrelevant (cfg : ChainConfig)
    (cap : Option Nat) (abi : ContractAbi) :
    contract_address_for { cfg with max_total_fee_per_gas := cap } abi =
      contract_address_for cfg abi := by
  cases abi <;> rfl

/-- A configured fee cap of zero normalizes to the same unset cap as an
absent configuration entry. -/
theorem normalized_fee_cap_zero_eq_none (cfg : ChainConfig) :
    normalized_max_total_fee_per_gas
        { cfg with max_total_fee_per_gas := some 0 } =
      normalized_max_total_fee_per_gas
        { cfg with max_total_fee_per_gas := none } := by
  rfl

/-- The assembled chain-utility request is identical under a zero fee
cap and an absent fee cap. -/
theorem make_utilities_request_fee_cap_zero (cfg : ChainConfig)
    (addr : String) (request : TransactionSubmissionStartRequest) :
    make_utilities_request { cfg with max_total_fee_per_gas := some 0 }
        addr request =
      make_utilities_request { cfg with max_total_fee_per_gas := none }
        addr request := by
  rfl

/-- C3: For every transaction submission started via
`_start_transaction_submission` or
`_start_depending_transactions_submission`, a configured
`max_total_fee_per_gas` of 0 produces exactly the same chain-utility
submission request as an absent `max_total_fee_per_gas` configuration
entry: the fee-cap field passed on is unset (`none`), so no fee
ceiling is applied across resubmissions. -/
theorem claim_C3_zero_fee_cap_eq_unset (cfg : ChainConfig)
    (request : TransactionSubmissionStartRequest) :
    (start_transaction_submission_request
        { cfg with max_total_fee_per_gas := some 0 } request =
      start_transaction_submission_request
        { cfg with max_total_fee_per_gas := none } request) ∧
    (∀ ureq,
      start_transaction_submission_request
          { cfg with max_total_fee_per_gas := some 0 } request = .ok ureq →
      ureq.max_total_fee_per_gas = none) ∧
    (∀ {σ : Type} (c : UtilitiesCollab σ) (b : Blockchain)
        (dep : DependingTransactionSubmissionStartRequest) (s : σ),
      start_depending_transactions_submission c
          { cfg with max_total_fee_per_gas := some 0 } b dep s =
        start_depending_transactions_submission c
          { cfg with max_total_fee_per_gas := none } b dep s) := by
  refine ⟨?_, ?_, ?_⟩
  · cases habi : request.versioned_contract_abi.contract_abi <;>
      simp [start_transaction_submission_request, contract_address_for, habi,
        make_utilities_request, normalized_max_total_fee_per_gas]
  · intro ureq h
    unfold start_transaction_submission_request at h
    cases hd : contract_address_for { cfg with max_total_fee_per_gas := some 0 }
        request.versioned_contract_abi.contract_abi with
    | error e => rw [hd] at h; cases h
    | ok addr =>
        rw [hd] at h
        cases h
        rfl
  · intro σ c b dep s
    cases habi : dep.prerequisite_transaction.versioned_contract_abi.contract_abi <;>
      simp [start_depending_transactions_submission, contract_address_for, habi,
        make_utilities_request, normalized_max_total_fee_per_gas]

/-- Witness for C3 at the concrete sample configuration and request. -/
theorem claim_C3_zero_fee_cap_eq_unset_witness :
    (make_utilities_request
        { sampleConfig with max_total_fee_per_gas := some 0 } "0xhub"
        sampleTx1).max_total_fee_per_gas = none :=
  (claim_C3_zero_fee_cap_eq_unset sampleConfig sampleTx1).2.1
    (make_utilities_request
      { sampleConfig with max_total_fee_per_gas := some 0 } "0xhub" sampleTx1)
    rfl

/-- C6: For every RPC call made through the middleware returned by
`NodeHealthMiddleware.wrap_make_request`: if the underlying
`make_request` call succeeds, its result is returned unchanged (and
the health map is untouched); if it raises an exception, that same
exception is re-raised unmodified — the middleware never suppresses or
replaces an error, and its only effect on failure is the health-flag
update on the obfuscated endpoint's entry. -/
theorem claim_C6_middleware_passthrough {M P E R : Type}
    (make_request : M → P → Except E R) (endpoint_uri : String)
    (m : HealthMap) (method : M) (params : P) :
    (∀ r, make_request method params = .ok r →
      wrap_make_request_middleware make_request endpoint_uri m method params =
        (.ok r, m)) ∧
    (∀ e, make_request method params = .error e →
      wrap_make_request_middleware make_request endpoint_uri m method params =
        (.error e,
          if (lookupEntry (obfuscate_endpoint_path endpoint_uri) m).isSome then
            setUnhealthy (obfuscate_endpoint_path endpoint_uri) m
          else m)) := by
  constructor
  · intro r h
    simp [wrap_make_request_middleware, h]
  · intro e h
    simp only [wrap_make_request_middleware, h]
    split <;> simp_all

/-- Witness for C6: a succeeding and a failing concrete call through
the middleware over a one-entry health map. -/
theorem claim_C6_middleware_passthrough_witness :
    (wrap_make_request_middleware
        (fun (_ : Nat) (_ : Nat) => (.ok "res" : Except String String))
        "https://node.example" [("https://node.example", ⟨.ETHEREUM, true⟩)]
        0 0 =
      (.ok "res", [("https://node.example", ⟨.ETHEREUM, true⟩)])) ∧
    (wrap_make_request_middleware
        (fun (_ : Nat) (_ : Nat) => (.error "boom" : Except String String))
        "https://node.example" [("https://node.example", ⟨.ETHEREUM, true⟩)]
        0 0 =
      (.error "boom",
        if (lookupEntry (obfuscate_endpoint_path "https://node.example")
            [("https://node.example", ⟨.ETHEREUM, true⟩)]).isSome then
          setUnhealthy (obfuscate_endpoint_path "https://node.example")
            [("https://node.example", ⟨.ETHEREUM, true⟩)]
        else [("https://node.example", ⟨.ETHEREUM, true⟩)])) :=
  ⟨(claim_C6_middleware_passthrough
      (fun (_ : Nat) (_ : Nat) => (.ok "res" : Except String String))
      "https://node.example" [("https://node.example", ⟨.ETHEREUM, true⟩)]
      0 0).1 "res" rfl,
   (claim_C6_middleware_passthrough
      (fun (_ : Nat) (_ : Nat) => (.error "boom" : Except String String))
      "https://node.example" [("https://node.example", ⟨.ETHEREUM, true⟩)]
      0 0).2 "boom" rfl⟩

/-- C9: Every concrete EVM-compatible client variant
(`AvalancheClient`, `BnbChainClient`, `CeloClient`, `CronosClient`,
`PolygonClient`) overrides only `get_blockchain` and `get_error_class`
relative to the shared `EthereumClient` base; for every other
operation, any two variants are behaviorally identical, differing only
in the chain identity they report and the error class they raise. -/
theorem claim_C9_variants_differ_only_in_identity (base : EthereumOps) :
    ((AvalancheClient base).ops = base ∧ (BnbChainClient base).ops = base ∧
      (CeloClient base).ops = base ∧ (CronosClient base).ops = base ∧
      (PolygonClient base).ops = base) ∧
    ((AvalancheClient base).get_blockchain = .AVALANCHE ∧
      (BnbChainClient base).get_blockchain = .BNB_CHAIN ∧
      (CeloClient base).get_blockchain = .CELO ∧
      (CronosClient base).get_blockchain = .CRONOS ∧
      (PolygonClient base).get_blockchain = .POLYGON) ∧
    ((AvalancheClient base).get_error_class = .AvalancheClientError ∧
      (BnbChainClient base).get_error_class = .BnbChainClientError ∧
      (CeloClient base).get_error_class = .CeloClientError ∧
      (CronosClient base).get_error_class = .CronosClientError ∧
      (PolygonClient base).get_error_class = .PolygonClientError) :=
  ⟨⟨rfl, rfl, rfl, rfl, rfl⟩, ⟨rfl, rfl, rfl, rfl, rfl⟩,
    ⟨rfl, rfl, rfl, rfl, rfl⟩⟩

/-- C2 (counterexample to the claim as stated): under the tracing
collaborator, running `_start_depending_transactions_submission` from
a fresh-id counter of 0 starts the prerequisite submission with
internal id 0 but returns 1 — the result of the task-enqueue call —
so the value returned synchronously to the caller is *not* the
prerequisite submission's internal transaction id. -/
theorem claim_C2_counterexample :
    start_depending_transactions_submission traceUtilities sampleConfig
        .ETHEREUM sampleDepRequest (0, []) =
      .ok (1, (2,
        [.started 0 (make_utilities_request sampleConfig "0xhub" sampleTx1),
         .enqueued 1
           ⟨.ETHEREUM, 0, 5, 14,
            make_utilities_request sampleConfig "0xhub" sampleTx2⟩])) ∧
    (1 : Nat) ≠ 0 := by
  exact ⟨rfl, by decide⟩

/-- C2 (amended): For every dependent-transaction request whose
prerequisite transaction targets the hub or token contract,
`_start_depending_transactions_submission` first starts the
prerequisite transaction submission through the chain utilities, only
afterwards enqueues the delayed job carrying the dependent request,
the prerequisite's internal id, `blocks_to_wait` and the chain's
average block time — and returns the result of the task-enqueue call
(the scheduled job's handle), not the prerequisite submission's
internal transaction id, which reaches the job only inside its
payload; the dependent submission's id is never returned inline. -/
theorem claim_C2_amended_depending_submission (cfg : ChainConfig)
    (b : Blockchain) (request : DependingTransactionSubmissionStartRequest)
    (n : Nat) (es : List SubmissionEvent) (addr : String)
    (h : contract_address_for cfg
        request.prerequisite_transaction.versioned_contract_abi.contract_abi =
      .ok addr) :
    start_depending_transactions_submission traceUtilities cfg b request
        (n, es) =
      .ok (n + 1, (n + 2,
        es ++
          [.started n (make_utilities_request cfg addr
              request.prerequisite_transaction),
           .enqueued (n + 1)
             ⟨b, n, request.blocks_to_wait, cfg.average_block_time,
              make_utilities_request cfg addr
                request.dependent_transaction⟩])) := by
  unfold start_depending_transactions_submission
  rw [h]
  simp [traceUtilities]

/-- Witness for the amended C2 at the concrete sample request, with
the fresh-id counter starting from 3. -/
theorem claim_C2_amended_depending_submission_witness :
    start_depending_transactions_submission traceUtilities sampleConfig
        .POLYGON sampleDepRequest (3, []) =
      .ok (4, (5,
        [.started 3 (make_utilities_request sampleConfig "0xhub" sampleTx1),
         .enqueued 4
           ⟨.POLYGON, 3, 5, 14,
            make_utilities_request sampleConfig "0xhub" sampleTx2⟩])) :=
  claim_C2_amended_depending_submission sampleConfig .POLYGON
    sampleDepRequest 3 [] "0xhub" rfl

/-- C4 (code bug): registering `https://p.example/v1/secretkey` stores
its health entry under the *raw* URI, while a failed RPC call looks up
the *obfuscated* URI; the obfuscated key is absent from the map, so
the failure leaves the entry healthy and the next flush still reports
one healthy endpoint, zero unhealthy ones — contradicting the spec's
claim that a call failure flips the registered endpoint to unhealthy
and increments the flushed `unhealthy_total` by one. -/
theorem claim_C4_failure_never_marks_registered_endpoint :
    add_blockchain_endpoint secretRpcNodes [] secretEndpointUri =
        [(secretEndpointUri, ⟨.AVALANCHE, true⟩)] ∧
    lookupEntry (obfuscate_endpoint_path secretEndpointUri)
        [(secretEndpointUri, ⟨.AVALANCHE, true⟩)] = none ∧
    (wrap_make_request_middleware
        (fun (_ : Unit) (_ : Unit) => (.error () : Except Unit Unit))
        secretEndpointUri [(secretEndpointUri, ⟨.AVALANCHE, true⟩)] () ()).2 =
      [(secretEndpointUri, ⟨.AVALANCHE, true⟩)] ∧
    flush_records [(secretEndpointUri, ⟨.AVALANCHE, true⟩)] =
      [(.AVALANCHE, ⟨0, [], 1⟩)] := by
  refine ⟨by decide, by decide, ?_, by decide⟩
  decide

/-- C5 (code bug): the key under which a registered endpoint's entry
is stored is the raw endpoint URI — the path with its embedded API key
included — not the obfuscated identity the spec describes; the
obfuscated identity differs from the stored key, registering twice is
stable on the raw key, and an unhealthy entry would be flushed with
the raw URI in the persisted unhealthy-endpoint list. -/
theorem claim_C5_raw_uri_stored_as_key :
    add_blockchain_endpoint secretRpcNodes [] secretEndpointUri =
        [("https://p.example/v1/" ++ "secretkey", ⟨.AVALANCHE, true⟩)] ∧
    obfuscate_endpoint_path secretEndpointUri =
        "https://p.example" ++ sha256hex "/v1/secretkey" ∧
    obfuscate_endpoint_path secretEndpointUri ≠ secretEndpointUri ∧
    add_blockchain_endpoint secretRpcNodes
        [(secretEndpointUri, ⟨.AVALANCHE, true⟩)] secretEndpointUri =
      [(secretEndpointUri, ⟨.AVALANCHE, true⟩)] ∧
    flush_records [(secretEndpointUri, ⟨.AVALANCHE, false⟩)] =
      [(.AVALANCHE, ⟨1, [secretEndpointUri], 0⟩)] := by
  refine ⟨by decide, by decide, by decide, by decide, by decide⟩

/-- Looking up a chain just upserted yields the updated record (over
the previous record, or the zero record when the chain was absent). -/
theorem lookupRecord_upsert_self (b : Blockchain) (f : ChainRecord → ChainRecord)
    (l : List (Blockchain × ChainRecord)) :
    lookupRecord b (upsertRecord b f l) =
      some (f ((lookupRecord b l).getD emptyChainRecord)) := by
  induction l with
  | nil => simp [upsertRecord, lookupRecord]
  | cons hd tl ih =>
      obtain ⟨b', r⟩ := hd
      by_cases h : b' = b
      · subst h; simp [upsertRecord, lookupRecord]
      · simp [upsertRecord, lookupRecord, h, ih]

/-- Upserting one chain leaves every other chain's record unchanged. -/
theorem lookupRecord_upsert_other (b b' : Blockchain)
    (f : ChainRecord → ChainRecord) (l : List (Blockchain × ChainRecord))
    (hb : b' ≠ b) :
    lookupRecord b' (upsertRecord b f l) = lookupRecord b' l := by
  induction l with
  | nil => simp [upsertRecord, lookupRecord, Ne.symm hb]
  | cons hd tl ih =>
      obtain ⟨b'', r⟩ := hd
      by_cases h : b'' = b
      · subst h
        simp [upsertRecord, lookupRecord, Ne.symm hb]
      · simp [upsertRecord, lookupRecord, h, ih]

/-- A per-entry record update adds exactly one to the counted total. -/
theorem bumpRecord_sum (ep : String) (e : HealthEntry) (r : ChainRecord) :
    (bumpRecord ep e r).healthy_total + (bumpRecord ep e r).unhealthy_total =
      r.healthy_total + r.unhealthy_total + 1 := by
  cases he : e.is_healthy <;> simp [bumpRecord, he] <;> omega

/-- A per-entry record update keeps the unhealthy-endpoint list length
in step with the unhealthy counter. -/
theorem bumpRecord_len (ep : String) (e : HealthEntry) (r : ChainRecord)
    (h : r.unhealthy_endpoints.length = r.unhealthy_total) :
    (bumpRecord ep e r).unhealthy_endpoints.length =
      (bumpRecord ep e r).unhealthy_total := by
  cases he : e.is_healthy <;> simp [bumpRecord, he, h]

/-- One flush-aggregation step adds exactly one to the tallied total
of the processed entry's chain and leaves every other chain's tally
alone. -/
theorem sumAt_flushStep (acc : List (Blockchain × ChainRecord))
    (kv : String × HealthEntry) (b : Blockchain) :
    sumAt b (flushStep acc kv) =
      sumAt b acc + (if kv.2.blockchain = b then 1 else 0) := by
  obtain ⟨ep, e⟩ := kv
  by_cases h : e.blockchain = b
  · simp only [flushStep, h, if_pos]
    rw [sumAt, sumAt, lookupRecord_upsert_self]
    cases hl : lookupRecord b acc with
    | none => simp [hl, bumpRecord_sum, emptyChainRecord]
    | some r => simp [hl, bumpRecord_sum]
  · simp only [flushStep, h, if_neg, not_false_iff]
    rw [sumAt, sumAt, lookupRecord_upsert_other _ _ _ _ (fun hc => h hc.symm)]
    simp

/-- Folding the flush aggregation over the health map tallies, for
every chain, exactly the number of that chain's map entries. -/
theorem sumAt_foldl (l : HealthMap) (acc : List (Blockchain × ChainRecord))
    (b : Blockchain) :
    sumAt b (List.foldl flushStep acc l) = sumAt b acc + countChain b l := by
  induction l generalizing acc with
  | nil => simp [countChain]
  | cons hd tl ih =>
      obtain ⟨ep, e⟩ := hd
      simp only [List.foldl_cons, ih, sumAt_flushStep, countChain]
      rw [Nat.add_assoc]

/-- One flush-aggregation step preserves the aggregate invariant. -/
theorem goodLens_flushStep (acc : List (Blockchain × ChainRecord))
    (kv : String × HealthEntry) (hg : GoodLens acc) :
    GoodLens (flushStep acc kv) := by
  obtain ⟨ep, e⟩ := kv
  intro b r hl
  simp only [flushStep] at hl
  by_cases h : e.blockchain = b
  · rw [h, lookupRecord_upsert_self] at hl
    cases hl
    cases hl0 : lookupRecord b acc with
    | none => exact bumpRecord_len ep e emptyChainRecord rfl
    | some r0 => exact bumpRecord_len ep e r0 (hg b r0 hl0)
  · rw [lookupRecord_upsert_other _ _ _ _ (fun hc => h hc.symm)] at hl
    exact hg b r hl

/-- The folded flush aggregation preserves the aggregate invariant. -/
theorem goodLens_foldl (l : HealthMap) (acc : List (Blockchain × ChainRecord))
    (hg : GoodLens acc) : GoodLens (List.foldl flushStep acc l) := by
  induction l generalizing acc with
  | nil => exact hg
  | cons hd tl ih => exact ih _ (goodLens_flushStep acc hd hg)

/-- C7: `NodeHealthMiddleware.flush_health_data` never writes to the
live health map: for any fixed map state, calling flush twice in
succession with no intervening RPC activity persists identical
per-chain records, and in each persisted record `healthy_total` plus
`unhealthy_total` equals the number of map entries for that chain
while the `unhealthy_endpoints` list has exactly `unhealthy_total`
elements. -/
theorem claim_C7_flush_pure_snapshot (m : HealthMap) :
    ((flush_health_data m).1 = m) ∧
    ((flush_health_data ((flush_health_data m).1)).2 =
      (flush_health_data m).2) ∧
    (∀ b rec, lookupRecord b (flush_health_data m).2 = some rec →
      rec.healthy_total + rec.unhealthy_total = countChain b m ∧
      rec.unhealthy_endpoints.length = rec.unhealthy_total) := by
  refine ⟨rfl, rfl, fun b rec h => ⟨?_, ?_⟩⟩
  · have hs := sumAt_foldl m [] b
    have hflush : (flush_health_data m).2 = List.foldl flushStep [] m := rfl
    rw [hflush] at h
    rw [sumAt, h] at hs
    simpa [sumAt, lookupRecord] using hs
  · have hg : GoodLens (List.foldl flushStep [] m) :=
      goodLens_foldl m [] (fun b r hr => by cases hr)
    exact hg b rec h

/-- Witness for C7 on a concrete three-entry health map. -/
theorem claim_C7_flush_pure_snapshot_witness :
    (⟨1, ["b"], 1⟩ : ChainRecord).healthy_total +
        (⟨1, ["b"], 1⟩ : ChainRecord).unhealthy_total =
      countChain .AVALANCHE
        [("a", ⟨.AVALANCHE, true⟩), ("b", ⟨.AVALANCHE, false⟩),
         ("c", ⟨.CELO, true⟩)] ∧
    (⟨1, ["b"], 1⟩ : ChainRecord).unhealthy_endpoints.length =
      (⟨1, ["b"], 1⟩ : ChainRecord).unhealthy_total :=
  (claim_C7_flush_pure_snapshot
      [("a", ⟨.AVALANCHE, true⟩), ("b", ⟨.AVALANCHE, false⟩),
       ("c", ⟨.CELO, true⟩)]).2.2
    .AVALANCHE ⟨1, ["b"], 1⟩ (by decide)

/-- A key bound in an association list keeps its binding after new
entries are appended at the end. -/
theorem lookupEntry_append_left (key : String) (m l : HealthMap)
    (e : HealthEntry) (h : lookupEntry key m = some e) :
    lookupEntry key (m ++ l) = some e := by
  induction m with
  | nil => cases h
  | cons hd tl ih =>
      obtain ⟨k, e'⟩ := hd
      by_cases hk : k = key
      · simpa [lookupEntry, hk] using h
      · rw [lookupEntry] at h
        rw [if_neg hk] at h
        simpa [lookupEntry, hk] using ih h

/-- `setUnhealthy` rewrites exactly the bindings stored under its key,
clearing their health flag and keeping their chain. -/
theorem lookupEntry_setUnhealthy (k key : String) (m : HealthMap) :
    lookupEntry key (setUnhealthy k m) =
      (lookupEntry key m).map
        (fun e => if k = key then ⟨e.blockchain, false⟩ else e) := by
  induction m with
  | nil => simp [setUnhealthy, lookupEntry]
  | cons hd tl ih =>
      obtain ⟨k1, e1⟩ := hd
      by_cases h2 : k1 = k
      · subst h2
        by_cases h1 : k1 = key
        · subst h1
          simp [setUnhealthy, lookupEntry]
        · simp [setUnhealthy, lookupEntry, h1, ih]
      · by_cases h1 : k1 = key
        · subst h1
          simp [setUnhealthy, lookupEntry, h2, Ne.symm h2]
        · simp [setUnhealthy, lookupEntry, h1, h2, ih]

/-- C10: No `NodeHealthMiddleware` operation ever removes a health-map
entry or transitions its `is_healthy` flag from `false` back to
`true`: `add_blockchain_endpoint` leaves an already-present entry
(including its health flag) unchanged, `wrap_make_request` only ever
assigns `false` (preserving the entry's chain), and
`flush_health_data` does not modify the map — once an endpoint is
marked unhealthy it remains unhealthy for the process lifetime. -/
theorem claim_C10_health_map_monotone :
    (∀ (rpc : RpcNodesConfig) (m : HealthMap) (uri key : String)
        (e : HealthEntry), lookupEntry key m = some e →
      lookupEntry key (add_blockchain_endpoint rpc m uri) = some e) ∧
    (∀ {M P E R : Type} (make_request : M → P → Except E R) (uri : String)
        (m : HealthMap) (method : M) (params : P) (key : String)
        (e : HealthEntry), lookupEntry key m = some e →
      ∃ b : Bool,
        lookupEntry key
            (wrap_make_request_middleware make_request uri m method params).2 =
          some ⟨e.blockchain, b⟩ ∧ (b = true → e.is_healthy = true)) ∧
    (∀ m : HealthMap, (flush_health_data m).1 = m) := by
  refine ⟨?_, ?_, fun m => rfl⟩
  · intro rpc m uri key e h
    induction rpc with
    | nil => exact h
    | cons hd tl ih =>
        obtain ⟨b, nodes⟩ := hd
        rw [add_blockchain_endpoint]
        split
        · split
          · exact h
          · exact lookupEntry_append_left key m _ e h
        · exact ih
  · intro M P E R make_request uri m method params key e h
    cases hcall : make_request method params with
    | ok r =>
        refine ⟨e.is_healthy, ?_, fun hh => hh⟩
        simp only [wrap_make_request_middleware, hcall]
        exact h
    | error err =>
        by_cases hobf :
            (lookupEntry (obfuscate_endpoint_path uri) m).isSome = true
        · by_cases hk : obfuscate_endpoint_path uri = key
          · refine ⟨false, ?_, fun hh => nomatch hh⟩
            simp only [wrap_make_request_middleware, hcall]
            rw [if_pos hobf]
            rw [lookupEntry_setUnhealthy, h]
            simp [hk]
          · refine ⟨e.is_healthy, ?_, fun hh => hh⟩
            simp only [wrap_make_request_middleware, hcall]
            rw [if_pos hobf]
            rw [lookupEntry_setUnhealthy, h]
            simp [hk]
        · refine ⟨e.is_healthy, ?_, fun hh => hh⟩
          simp only [wrap_make_request_middleware, hcall]
          rw [if_neg hobf]
          exact h

/-- Witness for C10: a pre-existing entry survives a registration of a
different endpoint, a failing call, and a flush, on concrete data. -/
theorem claim_C10_health_map_monotone_witness :
    lookupEntry "https://a.example"
        (add_blockchain_endpoint [(.CELO, (["https://b.example"], []))]
          [("https://a.example", ⟨.CELO, true⟩)] "https://b.example") =
      some ⟨.CELO, true⟩ :=
  claim_C10_health_map_monotone.1 [(.CELO, (["https://b.example"], []))]
    [("https://a.example", ⟨.CELO, true⟩)] "https://b.example"
    "https://a.example" ⟨.CELO, true⟩ rfl

